import Mathlib

/-!
Shallow embedding of the galaxy-map navigation core (GalaxyMap component):
the toroidal `wrap` helper, the circular-barrier collision model, the
navigation operations (drag, momentum, autopilot, repulsion, reset), the
autopilot hold timer, the wandering NPC state machine and the deterministic
starfield generator, together with theorems settling the specification
claims about them.

Real-valued program state is embedded with `ℝ` (JavaScript numbers are an
approximation of real arithmetic); purely discrete subsystems (the hold
timer, the star hash) are embedded with `ℚ`/`ℕ` and stay executable.
-/

namespace GalaxyMap

/-! ### Definitions: the toroidal `wrap` helper

Source (`wrap`): `range = max - min; if (range <= 0) return min;
while (result < min) result += range; while (result >= max) result -= range;`
-/

/-- First `while` loop of `wrap`: add `range` until the value is at least `mn`. -/
noncomputable def wrapUp (mn range : ℝ) (hr : 0 < range) (v : ℝ) : ℝ :=
  if v < mn then wrapUp mn range hr (v + range) else v
termination_by (⌈(mn - v) / range⌉).toNat
decreasing_by
  have h1 : (0 : ℝ) < (mn - v) / range := div_pos (by linarith) hr
  have h2 : (mn - (v + range)) / range = (mn - v) / range - 1 := by
    field_simp; ring
  have h3 : ⌈(mn - (v + range)) / range⌉ = ⌈(mn - v) / range⌉ - 1 := by
    rw [h2, Int.ceil_sub_one]
  have h4 : 0 < ⌈(mn - v) / range⌉ := Int.ceil_pos.mpr h1
  rw [h3]
  exact (Int.toNat_lt_toNat h4).mpr (by omega)

/-- Second `while` loop of `wrap`: subtract `range` until the value is below `mx`. -/
noncomputable def wrapDown (mx range : ℝ) (hr : 0 < range) (v : ℝ) : ℝ :=
  if mx ≤ v then wrapDown mx range hr (v - range) else v
termination_by (⌊(v - mx) / range⌋ + 1).toNat
decreasing_by
  have h1 : (0 : ℝ) ≤ (v - mx) / range := div_nonneg (by linarith) hr.le
  have h2 : (v - range - mx) / range = (v - mx) / range - 1 := by
    field_simp; ring
  have h3 : ⌊(v - range - mx) / range⌋ = ⌊(v - mx) / range⌋ - 1 := by
    rw [h2, Int.floor_sub_one]
  have h4 : 0 ≤ ⌊(v - mx) / range⌋ := Int.floor_nonneg.mpr h1
  rw [h3]
  exact (Int.toNat_lt_toNat (by omega)).mpr (by omega)

/-- The toroidal wrap from the source: bring `v` into `[mn, mx)` by repeatedly
adding and then subtracting `mx - mn`; degenerate ranges return `mn`. -/
noncomputable def wrap (v mn mx : ℝ) : ℝ :=
  if hr : mx - mn ≤ 0 then mn
  else wrapDown mx (mx - mn) (by linarith [not_le.mp hr]) (wrapUp mn (mx - mn) (by linarith [not_le.mp hr]) v)

/-- Source `WORLD_CONFIG.width` (world size in percent). -/
def WORLD_CONFIG_width : ℝ := 200

/-- Source `WORLD_CONFIG.height` (world size in percent). -/
def WORLD_CONFIG_height : ℝ := 200

/-! ### Definitions: collision & boundary model

Source (`checkBarrierCollision`): distance from the map origin, annulus test
`1190 < d <= 1220`, collision point `center + (cos, sin)(atan2 py px) * 1200`
in canvas coordinates (`null` when the canvas is unavailable).
-/

/-- JavaScript `Math.atan2(y, x)`: the argument of the complex number `x + y i`. -/
noncomputable def atan2 (y x : ℝ) : ℝ :=
  Complex.arg (x + y * Complex.I)

/-- Result record of `checkBarrierCollision`. -/
structure CollisionResult where
  isColliding : Bool
  collisionPoint : Option (ℝ × ℝ)

/-- The circular-barrier collision test from the source. `canvas` carries the
canvas `(width, height)` when the canvas element exists. -/
noncomputable def checkBarrierCollision (canvas : Option (ℝ × ℝ))
    (proposedMapX proposedMapY : ℝ) : CollisionResult :=
  let barrierRadius : ℝ := 1200
  let distanceFromCenter := Real.sqrt
    (proposedMapX * proposedMapX + proposedMapY * proposedMapY)
  if 1190 < distanceFromCenter ∧ distanceFromCenter ≤ 1220 then
    match canvas with
    | none => ⟨true, none⟩
    | some (w, h) =>
      let centerX := w / 2
      let centerY := h / 2
      let angle := atan2 proposedMapY proposedMapX
      ⟨true, some (centerX + Real.cos angle * barrierRadius,
                   centerY + Real.sin angle * barrierRadius)⟩
  else ⟨false, none⟩

/-! ### Definitions: navigation engine operations -/

/-- Mutable navigation state: ship position (world percent), visual map offset
(map pixels) and drag velocity. -/
structure NavState where
  shipX : ℝ
  shipY : ℝ
  mapX : ℝ
  mapY : ℝ
  velX : ℝ
  velY : ℝ

/-- Velocity clamp from the drag handler: `Math.max(-1.5, Math.min(1.5, v))`. -/
noncomputable def clampVel (v : ℝ) : ℝ := max (-1.5) (min 1.5 v)

/-- The ±5000 visual wrap applied to one map-offset coordinate during drags. -/
noncomputable def wrapMapCoord (v : ℝ) : ℝ :=
  let wrapThreshold : ℝ := 5000
  let v1 := if v > wrapThreshold then v - wrapThreshold * 2 else v
  if v1 < -wrapThreshold then v1 + wrapThreshold * 2 else v1

/-- Navigation core of `handleMouseMove` (drag update): derive velocity from
the pixel delta, propose a wrapped ship position, convert the applied ship
delta to map space, query the collision model; on collision keep the position
and zero the velocity (repulsion is the separate `repelPlayerStep`), otherwise
commit position, offset (±5000-wrapped) and velocity. -/
noncomputable def handleMouseMoveStep (canvas : Option (ℝ × ℝ))
    (deltaX deltaY deltaTime : ℝ) (s : NavState) : NavState :=
  let velX := if 0 < deltaTime then clampVel (deltaX * 0.08) else s.velX
  let velY := if 0 < deltaTime then clampVel (deltaY * 0.08) else s.velY
  let proposedX := wrap (s.shipX - deltaX / 12) 0 WORLD_CONFIG_width
  let proposedY := wrap (s.shipY - deltaY / 12) 0 WORLD_CONFIG_height
  let deltaMapX := (s.shipX - proposedX) * 12
  let deltaMapY := (s.shipY - proposedY) * 12
  let proposedMapX := s.mapX + deltaMapX
  let proposedMapY := s.mapY + deltaMapY
  if (checkBarrierCollision canvas proposedMapX proposedMapY).isColliding then
    { s with velX := 0, velY := 0 }
  else
    { shipX := proposedX, shipY := proposedY,
      mapX := wrapMapCoord (s.mapX + deltaX), mapY := wrapMapCoord (s.mapY + deltaY),
      velX := velX, velY := velY }

/-- One frame of `autoPilotMovement`: move at fixed speed 1.8 along the
pointer direction; on collision the autopilot stops and nothing is committed
(repulsion is the separate `repelPlayerStep`). -/
noncomputable def autoPilotMovementStep (canvas : Option (ℝ × ℝ))
    (dirX dirY : ℝ) (s : NavState) : NavState :=
  let speed : ℝ := 1.8
  let deltaX := dirX * speed
  let deltaY := dirY * speed
  let proposedX := wrap (s.shipX - deltaX / 12) 0 WORLD_CONFIG_width
  let proposedY := wrap (s.shipY - deltaY / 12) 0 WORLD_CONFIG_height
  let deltaMapX := (s.shipX - proposedX) * 12
  let deltaMapY := (s.shipY - proposedY) * 12
  let proposedMapX := s.mapX + deltaMapX
  let proposedMapY := s.mapY + deltaMapY
  if (checkBarrierCollision canvas proposedMapX proposedMapY).isColliding then s
  else
    { shipX := proposedX, shipY := proposedY,
      mapX := s.mapX + deltaX, mapY := s.mapY + deltaY,
      velX := s.velX, velY := s.velY }

/-- `repelPlayer`: push the map away from the collision point by a fixed
impulse of 15 map units (final animated value) and move the ship by the
reciprocal wrapped delta; the current velocity is zeroed. -/
noncomputable def repelPlayerStep (w h collisionX collisionY : ℝ)
    (s : NavState) : NavState :=
  let centerX := w / 2
  let centerY := h / 2
  let repelDirectionX := collisionX - centerX
  let repelDirectionY := collisionY - centerY
  let distance := Real.sqrt
    (repelDirectionX * repelDirectionX + repelDirectionY * repelDirectionY)
  if 0 < distance then
    let normalizedX := repelDirectionX / distance
    let normalizedY := repelDirectionY / distance
    let repelForce : ℝ := 15
    { shipX := wrap (s.shipX + normalizedX * repelForce / 12) 0 WORLD_CONFIG_width,
      shipY := wrap (s.shipY + normalizedY * repelForce / 12) 0 WORLD_CONFIG_height,
      mapX := s.mapX - normalizedX * repelForce,
      mapY := s.mapY - normalizedY * repelForce,
      velX := 0, velY := 0 }
  else s

/-- `resetShipPosition`: ship back to (50,50), velocity and offset zeroed
(final animated values). -/
noncomputable def resetShipPositionStep : NavState :=
  { shipX := 50, shipY := 50, mapX := 0, mapY := 0, velX := 0, velY := 0 }

/-- State of the `applyMomentum` animation loop; `running = false` once the
loop has returned without rescheduling itself. -/
structure MomentumState where
  shipX : ℝ
  shipY : ℝ
  mapX : ℝ
  mapY : ℝ
  velX : ℝ
  velY : ℝ
  running : Bool

/-- Proposed ship x-position of one momentum frame
(`wrap(ship - newVel*1.5/20, 0, width)`). -/
noncomputable def momentumProposedX (m : MomentumState) : ℝ :=
  wrap (m.shipX - m.velX * 0.995 * 1.5 / 20) 0 WORLD_CONFIG_width

/-- Proposed ship y-position of one momentum frame. -/
noncomputable def momentumProposedY (m : MomentumState) : ℝ :=
  wrap (m.shipY - m.velY * 0.995 * 1.5 / 20) 0 WORLD_CONFIG_height

/-- Proposed map-offset x of one momentum frame. -/
noncomputable def momentumProposedMapX (m : MomentumState) : ℝ :=
  m.mapX + (m.shipX - momentumProposedX m) * 12

/-- Proposed map-offset y of one momentum frame. -/
noncomputable def momentumProposedMapY (m : MomentumState) : ℝ :=
  m.mapY + (m.shipY - momentumProposedY m) * 12

/-- The collision test performed by one momentum frame. -/
def momentumCollides (canvas : Option (ℝ × ℝ)) (m : MomentumState) : Prop :=
  (checkBarrierCollision canvas (momentumProposedMapX m)
    (momentumProposedMapY m)).isColliding = true

/-- One frame of `applyMomentum`: stop (velocity exactly zero) when both
velocity components are below 0.001 in magnitude; otherwise apply friction
0.995, re-derive the proposed position/offset, stop on collision, else commit
and continue. -/
noncomputable def applyMomentumStep (canvas : Option (ℝ × ℝ))
    (m : MomentumState) : MomentumState :=
  if m.running then
    if |m.velX| < 0.001 ∧ |m.velY| < 0.001 then
      { m with velX := 0, velY := 0, running := false }
    else if (checkBarrierCollision canvas (momentumProposedMapX m)
        (momentumProposedMapY m)).isColliding then
      { m with velX := 0, velY := 0, running := false }
    else
      { shipX := momentumProposedX m, shipY := momentumProposedY m,
        mapX := m.mapX + m.velX * 0.995 * 1.5,
        mapY := m.mapY + m.velY * 0.995 * 1.5,
        velX := m.velX * 0.995, velY := m.velY * 0.995, running := true }
  else m

/-! ### Definitions: autopilot hold timer (discrete, over `ℚ`) -/

/-- The hold/autopilot bookkeeping state. -/
structure HoldState where
  isAutoPilot : Bool
  isDragging : Bool
  isHolding : Bool
  holdStartTime : Option ℚ
  holdProgress : ℚ
  deriving DecidableEq

/-- `handleMouseDown`: a click cancels an active autopilot; otherwise it
starts a drag session and arms the hold timer. -/
def handleMouseDownHold (t : ℚ) (s : HoldState) : HoldState :=
  if s.isAutoPilot then { s with isAutoPilot := false }
  else
    { s with
      isDragging := true
      isHolding := true
      holdStartTime := some t
      holdProgress := 0 }

/-- Hold handling of `handleMouseMove`: while dragging, any pointer-move
event cancels an armed hold timer; the pixel delta is not consulted. -/
def handleMouseMoveHold (deltaX deltaY : ℚ) (s : HoldState) : HoldState :=
  if s.isDragging = false then s
  else if s.isHolding then
    { s with isHolding := false, holdProgress := 0, holdStartTime := none }
  else s

/-- `updateProgress`: advance hold progress linearly over 2500 ms; at
completion activate the autopilot and clear the hold state. -/
def updateProgress (t : ℚ) (s : HoldState) : HoldState :=
  match s.isHolding, s.holdStartTime with
  | true, some holdStartTime =>
    let elapsed := t - holdStartTime
    let progress := min (elapsed / 2500) 1
    if 1 ≤ progress then
      { s with
        isAutoPilot := true
        isHolding := false
        holdProgress := 0
        holdStartTime := none }
    else { s with holdProgress := progress }
  | _, _ => s

/-! ### Definitions: wandering NPC controller -/

/-- A point of interest; only the position is consulted by the NPC. -/
structure Point where
  x : ℝ
  y : ℝ

/-- The wandering ship state (source `wanderingShip`). -/
structure WanderingShip where
  x : ℝ
  y : ℝ
  velocityX : ℝ
  velocityY : ℝ
  rotation : ℝ
  baseSpeed : ℝ
  maxSpeed : ℝ
  direction : ℝ
  targetDirection : ℝ
  directionChangeTimer : ℝ
  nextDirectionChange : ℝ
  isMoving : Bool
  distanceToPlayer : ℝ
  isPaused : Bool
  pauseTimer : ℝ
  nearestWorldDistance : ℝ
  hasRecentlyPaused : Bool
  pauseCooldown : ℝ

/-- Per-tick environment inputs of `updateWanderingShip`: the `Math.random()`
draws actually consumed and the wall-clock time `Date.now() * 0.001`. -/
structure WanderInput where
  rPause : ℝ
  rTarget : ℝ
  rNextChange : ℝ
  rBounce : ℝ
  time : ℝ

/-- Minimum distance from `(x, y)` to any point of interest (100 when the
point list is empty), as computed at the top of `updateWanderingShip`. -/
noncomputable def nearestWorldDistanceCalc (points : List Point) (x y : ℝ) : ℝ :=
  ((points.map fun p =>
    Real.sqrt ((x - p.x) * (x - p.x) + (y - p.y) * (y - p.y))).min?).getD 100

/-- The source's initial `wanderingShip` state, with the three `Math.random()`
draws as parameters. -/
noncomputable def wanderingShipInit (r1 r2 r3 : ℝ) : WanderingShip :=
  { x := 50, y := 45, velocityX := 0, velocityY := 0, rotation := 0,
    baseSpeed := 0.2, maxSpeed := 0.4,
    direction := r1 * Real.pi * 2, targetDirection := r2 * Real.pi * 2,
    directionChangeTimer := 0, nextDirectionChange := 300 + r3 * 600,
    isMoving := true, distanceToPlayer := 100,
    isPaused := false, pauseTimer := 0, nearestWorldDistance := 100,
    hasRecentlyPaused := false, pauseCooldown := 0 }

/-- Movement section of `updateWanderingShip` (executed when the tick ends up
unpaused): clear the recently-paused flag far from all worlds, resample /
interpolate the heading, integrate the position by `(cos, sin)(heading) ×
speed`, and apply the radius-35/36 boundary handling. `hasRecentlyPaused` and
`pauseCooldown` carry the values established by the pause bookkeeping. -/
noncomputable def wanderMove (inp : WanderInput) (prev : WanderingShip)
    (distanceToPlayer nearestWorldDistance : ℝ) (hasRecentlyPaused : Bool)
    (pauseCooldown : ℝ) : WanderingShip :=
  let hasRecentlyPaused2 := if nearestWorldDistance > 15 then false
    else hasRecentlyPaused
  let newDirectionChangeTimer := prev.directionChangeTimer + 1
  let resample := newDirectionChangeTimer ≥ prev.nextDirectionChange
  let newTargetDirection := if resample then inp.rTarget * Real.pi * 2
    else prev.targetDirection
  let newDirectionChangeTimer2 := if resample then 0 else newDirectionChangeTimer
  let newNextDirectionChange := if resample then 300 + inp.rNextChange * 600
    else prev.nextDirectionChange
  let directionDiff0 := newTargetDirection - prev.direction
  let directionDiff1 := if directionDiff0 > Real.pi
    then directionDiff0 - Real.pi * 2 else directionDiff0
  let directionDiff := if directionDiff1 < -Real.pi
    then directionDiff1 + Real.pi * 2 else directionDiff1
  let newDirection := prev.direction + directionDiff * 0.01
  let speedMultiplier :=
    0.7 + 0.6 * Real.sin (inp.time * 0.5) * Real.sin (inp.time * 0.3)
  let currentSpeed := prev.baseSpeed * speedMultiplier
  let newVelocityX := Real.cos newDirection * currentSpeed
  let newVelocityY := Real.sin newDirection * currentSpeed
  let newX := prev.x + newVelocityX
  let newY := prev.y + newVelocityY
  let distanceFromCenter := Real.sqrt
    ((newX - 50) * (newX - 50) + (newY - 50) * (newY - 50))
  let angleToCenter := atan2 (50 - prev.y) (50 - prev.x)
  let bounceDirection := angleToCenter + Real.pi + (inp.rBounce - 0.5) * 0.8
  let finalPos : ℝ × ℝ :=
    if distanceFromCenter > 35 then
      if distanceFromCenter > 36 then
        (50 + Real.cos angleToCenter * 35, 50 + Real.sin angleToCenter * 35)
      else (prev.x, prev.y)
    else (newX, newY)
  let newRotation := newDirection * 180 / Real.pi + 90
  { x := finalPos.1, y := finalPos.2,
    velocityX := newVelocityX, velocityY := newVelocityY,
    rotation := newRotation,
    baseSpeed := prev.baseSpeed, maxSpeed := prev.maxSpeed,
    direction := if distanceFromCenter > 35 then bounceDirection
      else newDirection,
    targetDirection := newTargetDirection,
    directionChangeTimer := newDirectionChangeTimer2,
    nextDirectionChange := newNextDirectionChange,
    isMoving := true, distanceToPlayer := distanceToPlayer,
    isPaused := false, pauseTimer := 0,
    nearestWorldDistance := nearestWorldDistance,
    hasRecentlyPaused := hasRecentlyPaused2, pauseCooldown := pauseCooldown }

/-- One fixed-rate tick of `updateWanderingShip`: distance bookkeeping, the
pause state machine (pause countdown / proximity-triggered pause entry with a
600-tick cooldown on exit), then `wanderMove` when the tick ends up unpaused. -/
noncomputable def updateWanderingShip (points : List Point) (inp : WanderInput)
    (prev : WanderingShip) : WanderingShip :=
  let dx := prev.x - 50
  let dy := prev.y - 50
  let distanceToPlayer := Real.sqrt (dx * dx + dy * dy)
  let nearestWorldDistance := nearestWorldDistanceCalc points prev.x prev.y
  let pauseCooldown := max 0 (prev.pauseCooldown - 1)
  if prev.isPaused then
    let pauseTimer := prev.pauseTimer - 1
    if pauseTimer ≤ 0 then
      wanderMove inp prev distanceToPlayer nearestWorldDistance true 600
    else
      { prev with
        isPaused := true
        pauseTimer := pauseTimer
        hasRecentlyPaused := prev.hasRecentlyPaused
        pauseCooldown := pauseCooldown
        distanceToPlayer := distanceToPlayer
        nearestWorldDistance := nearestWorldDistance
        isMoving := false }
  else if nearestWorldDistance < 8 ∧ prev.hasRecentlyPaused = false ∧
      pauseCooldown ≤ 0 then
    { prev with
      isPaused := true
      pauseTimer := 180 + inp.rPause * 240
      hasRecentlyPaused := prev.hasRecentlyPaused
      pauseCooldown := pauseCooldown
      distanceToPlayer := distanceToPlayer
      nearestWorldDistance := nearestWorldDistance
      isMoving := false }
  else
    wanderMove inp prev distanceToPlayer nearestWorldDistance
      prev.hasRecentlyPaused pauseCooldown

/-- A trace of NPC ticks under per-tick point lists and inputs. -/
noncomputable def wanderTrace (ptss : ℕ → List Point) (inps : ℕ → WanderInput)
    (s0 : WanderingShip) : ℕ → WanderingShip
  | 0 => s0
  | k + 1 => updateWanderingShip (ptss k) (inps k) (wanderTrace ptss inps s0 k)

/-! ### Definitions: deterministic starfield generator -/

/-- JavaScript 32-bit two's-complement bit pattern of an integer. -/
def toU32 (n : ℤ) : ℕ := (n % 4294967296).toNat

/-- The 32-bit mix hash of the star generator (`hash(x, y, layer)`), returning
a fraction in `[0, 1)`. `Math.imul` is multiplication mod 2^32,
`(h << 13) | (h >>> 19)` is a 13-bit left rotation of the bit pattern. -/
def hash (x y : ℚ) (layer : ℤ) : ℚ :=
  let h0 := 1779033703 ^^^ toU32 layer
  let h1 := (h0 ^^^ toU32 ⌊x⌋) * 3432918353 % 4294967296
  let h2 := h1 <<< 13 % 4294967296 ||| h1 >>> 19
  let h3 := (h2 ^^^ toU32 ⌊y⌋) * 461845907 % 4294967296
  let h4 := h3 <<< 13 % 4294967296 ||| h3 >>> 19
  (h4 : ℚ) / 4294967296

/-- The fixed star color palette. -/
def starColors : List String :=
  ["#60A5FA", "#F87171", "#34D399", "#FBBF24", "#A78BFA", "#FB7185"]

/-- Base (time-independent) properties of a generated star. -/
structure StarBase where
  worldX : ℚ
  worldY : ℚ
  baseSize : ℚ
  baseOpacity : ℚ
  color : String
  animationSeed : ℚ
  animationSeed2 : ℚ

/-- A generated star: base properties plus the animated values layered on
top as functions of wall-clock time. -/
structure StarRender where
  base : StarBase
  blinkFactor : ℝ
  floatOffsetX : ℝ
  floatOffsetY : ℝ
  animatedSize : ℝ
  animatedOpacity : ℝ

/-- The star set of one 50-unit grid cell of one parallax layer
(`generateLayer`'s per-cell loop), including the animated values derived
from `currentTime`. -/
noncomputable def cellStars (gx gy layer : ℤ) (density : ℚ)
    (currentTime : ℝ) : List StarRender :=
  let cellHash := hash (gx : ℚ) (gy : ℚ) layer
  let numStars := (⌊cellHash * density⌋).toNat
  (List.range numStars).map fun (i : ℕ) =>
    let starHash := hash ((gx : ℚ) + i * 137) ((gy : ℚ) + i * 241) (layer + (i : ℤ))
    let starHash2 := hash ((gx : ℚ) + i * 173) ((gy : ℚ) + i * 197)
      (layer + (i : ℤ) + 1000)
    let localX := starHash * 50
    let localY := starHash2 * 50
    let worldX := (gx : ℚ) + localX
    let worldY := (gy : ℚ) + localY
    let sizeHash := hash (worldX * 1.1) (worldY * 1.3) layer
    let opacityHash := hash (worldX * 1.7) (worldY * 1.9) layer
    let colorHash := hash (worldX * 2.1) (worldY * 2.3) layer
    let animationSeed := hash (worldX * 3.7) (worldY * 4.1) layer
    let animationSeed2 := hash (worldX * 5.3) (worldY * 6.7) layer
    let baseSize : ℚ := if layer = 1 then 0.3 + sizeHash * 0.5
      else if layer = 2 then 0.6 + sizeHash * 0.6 else 1.0 + sizeHash * 1.0
    let baseOpacity : ℚ := if layer = 1 then 0.1 + opacityHash * 0.3
      else if layer = 2 then 0.2 + opacityHash * 0.4 else 0.4 + opacityHash * 0.5
    let blinkSpeed : ℚ := 0.5 + animationSeed * 1.5
    let blinkPhase : ℝ := (animationSeed : ℝ) * Real.pi * 2
    let blinkIntensity : ℚ := 0.3 + animationSeed2 * 0.4
    let blinkFactor : ℝ :=
      1 + Real.sin (currentTime * (blinkSpeed : ℝ) + blinkPhase) * (blinkIntensity : ℝ)
    let floatSpeedX : ℚ := (animationSeed - 0.5) * 0.8
    let floatSpeedY : ℚ := (animationSeed2 - 0.5) * 0.6
    let floatPhaseX : ℝ := (animationSeed : ℝ) * Real.pi * 4
    let floatPhaseY : ℝ := (animationSeed2 : ℝ) * Real.pi * 4
    let floatRange : ℚ := if layer = 1 then 0.3 else if layer = 2 then 0.5 else 0.8
    let floatOffsetX : ℝ :=
      Real.sin (currentTime * (floatSpeedX : ℝ) + floatPhaseX) * (floatRange : ℝ)
    let floatOffsetY : ℝ :=
      Real.cos (currentTime * (floatSpeedY : ℝ) + floatPhaseY) * (floatRange : ℝ)
    let blinkFactorR := blinkFactor
    let animatedSize : ℝ := (baseSize : ℝ) * blinkFactorR
    let animatedOpacity : ℝ := min 1 ((baseOpacity : ℝ) * blinkFactorR)
    let isColorful := layer = 3 ∧ colorHash > 0.8
    let color := if isColorful then
        starColors.getD (⌊colorHash * (starColors.length : ℚ)⌋).toNat "#ffffff"
      else "#ffffff"
    { base := { worldX := worldX, worldY := worldY, baseSize := baseSize,
                baseOpacity := baseOpacity, color := color,
                animationSeed := animationSeed, animationSeed2 := animationSeed2 },
      blinkFactor := blinkFactor, floatOffsetX := floatOffsetX,
      floatOffsetY := floatOffsetY, animatedSize := animatedSize,
      animatedOpacity := animatedOpacity }

/-! ### Helper lemmas about `wrap` -/

theorem le_wrapUp (mn range : ℝ) (hr : 0 < range) (v : ℝ) :
    mn ≤ wrapUp mn range hr v := by
  induction v using wrapUp.induct mn range hr with
  | case1 v hv ih => rw [wrapUp, if_pos hv]; exact ih
  | case2 v hv => rw [wrapUp, if_neg hv]; exact not_lt.mp hv

theorem wrapUp_of_le (mn range : ℝ) (hr : 0 < range) (v : ℝ) (h : mn ≤ v) :
    wrapUp mn range hr v = v := by
  rw [wrapUp, if_neg (not_lt.mpr h)]

theorem wrapDown_lt (mx range : ℝ) (hr : 0 < range) (v : ℝ) :
    wrapDown mx range hr v < mx := by
  induction v using wrapDown.induct mx range hr with
  | case1 v hv ih => rw [wrapDown, if_pos hv]; exact ih
  | case2 v hv => rw [wrapDown, if_neg hv]; exact not_le.mp hv

theorem wrapDown_of_lt (mx range : ℝ) (hr : 0 < range) (v : ℝ) (h : v < mx) :
    wrapDown mx range hr v = v := by
  rw [wrapDown, if_neg (not_le.mpr h)]

theorem le_wrapDown (mx mn : ℝ) (hr : 0 < mx - mn) (v : ℝ) (h : mn ≤ v) :
    mn ≤ wrapDown mx (mx - mn) hr v := by
  induction v using wrapDown.induct mx (mx - mn) hr with
  | case1 v hv ih => rw [wrapDown, if_pos hv]; exact ih (by linarith)
  | case2 v hv => rw [wrapDown, if_neg hv]; exact h

theorem wrap_mem_Ico (v mn mx : ℝ) (h : mn < mx) :
    wrap v mn mx ∈ Set.Ico mn mx := by
  rw [wrap, dif_neg (not_le.mpr (by linarith))]
  exact ⟨le_wrapDown mx mn (by linarith) _ (le_wrapUp mn (mx - mn) (by linarith) v),
    wrapDown_lt mx (mx - mn) (by linarith) _⟩

theorem wrap_eq_self (v mn mx : ℝ) (h1 : mn ≤ v) (h2 : v < mx) :
    wrap v mn mx = v := by
  rw [wrap, dif_neg (not_le.mpr (by linarith))]
  rw [wrapUp_of_le mn (mx - mn) (by linarith) v h1]
  exact wrapDown_of_lt mx (mx - mn) (by linarith) v h2

/-! ### Claim theorems -/

/-- C1: for every proposed map-offset point `(x, y)` with distance
`d = sqrt(x^2 + y^2)` from the origin, `checkBarrierCollision` reports
`colliding = true` iff `1190 < d ≤ 1220`, and `false` outside that band. -/
theorem checkBarrierCollision_band (canvas : Option (ℝ × ℝ)) (x y : ℝ) :
    (checkBarrierCollision canvas x y).isColliding = true ↔
      (1190 < Real.sqrt (x * x + y * y) ∧ Real.sqrt (x * x + y * y) ≤ 1220) := by
  unfold checkBarrierCollision
  by_cases h : 1190 < Real.sqrt (x * x + y * y) ∧ Real.sqrt (x * x + y * y) ≤ 1220
  · rw [if_pos h]
    cases canvas with
    | none => simpa using h
    | some c =>
      obtain ⟨w, hh⟩ := c
      simpa using h
  · rw [if_neg h]
    simpa using h

/-- C2: whenever `checkBarrierCollision` (with an available canvas) reports a
collision, the returned collision point lies on the circle of radius 1200
around the canvas center, at the same `atan2` angle as the proposed point. -/
theorem checkBarrierCollision_point_on_circle (px py w h : ℝ)
    (hc : (checkBarrierCollision (some (w, h)) px py).isColliding = true) :
    ∃ cp : ℝ × ℝ,
      (checkBarrierCollision (some (w, h)) px py).collisionPoint = some cp ∧
      Real.sqrt ((cp.1 - w / 2) * (cp.1 - w / 2) +
        (cp.2 - h / 2) * (cp.2 - h / 2)) = 1200 ∧
      atan2 (cp.2 - h / 2) (cp.1 - w / 2) = atan2 py px := by
  by_cases hband : 1190 < Real.sqrt (px * px + py * py) ∧
      Real.sqrt (px * px + py * py) ≤ 1220
  · set θ := atan2 py px with hθdef
    refine ⟨(w / 2 + Real.cos θ * 1200, h / 2 + Real.sin θ * 1200), ?_, ?_, ?_⟩
    · unfold checkBarrierCollision
      rw [if_pos hband]
    · have hsum : (w / 2 + Real.cos θ * 1200 - w / 2) * (w / 2 + Real.cos θ * 1200 - w / 2) +
          (h / 2 + Real.sin θ * 1200 - h / 2) * (h / 2 + Real.sin θ * 1200 - h / 2) =
          1200 ^ 2 := by
        have hpyth := Real.sin_sq_add_cos_sq θ
        nlinarith [hpyth]
      simp only [hsum]
      exact Real.sqrt_sq (by norm_num)
    · have hmem : θ ∈ Set.Ioc (-Real.pi) Real.pi := Complex.arg_mem_Ioc _
      have hcast : ((1200 : ℝ) : ℂ) * (Real.cos θ + Real.sin θ * Complex.I) =
          ((w / 2 + Real.cos θ * 1200 - w / 2 : ℝ) : ℂ) +
          ((h / 2 + Real.sin θ * 1200 - h / 2 : ℝ) : ℂ) * Complex.I := by
        push_cast
        ring
      show Complex.arg _ = θ
      rw [← hcast, Complex.arg_real_mul _ (by norm_num : (0 : ℝ) < 1200),
        Complex.ofReal_cos, Complex.ofReal_sin,
        Complex.arg_cos_add_sin_mul_I hmem]
  · exfalso
    rw [checkBarrierCollision_band] at hc
    exact hband hc

/-- Witness for C2 at the proposed point `(1200, 0)` (distance exactly 1200)
with a 0×0 canvas. -/
theorem checkBarrierCollision_point_on_circle_witness :
    ((checkBarrierCollision (some ((0 : ℝ), 0)) 1200 0).isColliding = true) ∧
    (∃ cp : ℝ × ℝ,
      (checkBarrierCollision (some ((0 : ℝ), 0)) 1200 0).collisionPoint = some cp ∧
      Real.sqrt ((cp.1 - 0 / 2) * (cp.1 - 0 / 2) +
        (cp.2 - 0 / 2) * (cp.2 - 0 / 2)) = 1200 ∧
      atan2 (cp.2 - 0 / 2) (cp.1 - 0 / 2) = atan2 0 1200) := by
  have hs : Real.sqrt ((1200 : ℝ) * 1200 + 0 * 0) = 1200 := by
    rw [show ((1200 : ℝ) * 1200 + 0 * 0) = 1200 ^ 2 by norm_num]
    exact Real.sqrt_sq (by norm_num)
  have hc : (checkBarrierCollision (some ((0 : ℝ), 0)) 1200 0).isColliding = true := by
    unfold checkBarrierCollision
    rw [if_pos (by rw [hs]; norm_num)]
  exact ⟨hc, checkBarrierCollision_point_on_circle 1200 0 0 0 hc⟩

theorem checkBarrierCollision_far_inside (canvas : Option (ℝ × ℝ)) (px py : ℝ)
    (h : px * px + py * py < 1190 ^ 2) :
    (checkBarrierCollision canvas px py).isColliding = false := by
  unfold checkBarrierCollision
  rw [if_neg]
  · rintro ⟨h1, _⟩
    have hlt : Real.sqrt (px * px + py * py) < 1190 :=
      (Real.sqrt_lt' (by norm_num)).mpr h
    linarith

/-- C3: for every real `v`, `wrap(v, 0, 100)` lies in `[0, 100)` and `wrap`
is idempotent on that call. -/
theorem wrap_range_and_idempotent (v : ℝ) :
    wrap v 0 100 ∈ Set.Ico (0 : ℝ) 100 ∧
    wrap (wrap v 0 100) 0 100 = wrap v 0 100 := by
  have h := wrap_mem_Ico v 0 100 (by norm_num)
  exact ⟨h, wrap_eq_self _ 0 100 h.1 h.2⟩

/-- C9: the base star set of a fixed (cell, layer) pair is a deterministic
function of the cell, layer and density alone: the time argument (the only
mutable input) affects none of the base properties. -/
theorem cellStars_base_time_independent (gx gy layer : ℤ) (density : ℚ)
    (t1 t2 : ℝ) :
    (cellStars gx gy layer density t1).map StarRender.base =
    (cellStars gx gy layer density t2).map StarRender.base ∧
    (cellStars gx gy layer density t1).length =
    (cellStars gx gy layer density t2).length := by
  constructor
  · simp only [cellStars, List.map_map]
    rfl
  · simp only [cellStars, List.length_map]

/-- C5 counterexample: a pointer movement of magnitude 1/2 (not exceeding the
1-unit threshold) cancels an armed hold and resets the progress, refuting
"only movement exceeding the 1-unit threshold cancels the hold timer". -/
theorem handleMouseMoveHold_cancels_on_small_movement :
    ((1 / 2 : ℚ) * (1 / 2) + 0 * 0 ≤ 1) ∧
    (handleMouseMoveHold (1 / 2) 0
      (HoldState.mk false true true (some 0) (1 / 2))).isHolding = false ∧
    (handleMouseMoveHold (1 / 2) 0
      (HoldState.mk false true true (some 0) (1 / 2))).holdProgress = 0 := by
  refine ⟨by norm_num, rfl, rfl⟩

/-- C5 (amended): while dragging, any pointer-move event cancels an armed
hold and resets hold progress to 0 regardless of the movement magnitude; and
an `updateProgress` tick activates the autopilot iff the hold is still armed
and at least 2500 ms have elapsed since the hold start. -/
theorem hold_cancellation_and_activation (s : HoldState) (t st deltaX deltaY : ℚ) :
    (s.isDragging = true → s.isHolding = true →
      (handleMouseMoveHold deltaX deltaY s).isHolding = false ∧
      (handleMouseMoveHold deltaX deltaY s).holdProgress = 0) ∧
    (s.isAutoPilot = false → s.holdStartTime = some st →
      ((updateProgress t s).isAutoPilot = true ↔
        s.isHolding = true ∧ 2500 ≤ t - st)) := by
  constructor
  · intro hd hh
    simp [handleMouseMoveHold, hd, hh]
  · intro ha hst
    cases hb : s.isHolding with
    | false =>
      simp only [updateProgress, hb, hst, ha]
      constructor
      · intro hfalse
        exact absurd hfalse (by simp)
      · rintro ⟨hcontra, _⟩
        exact absurd hcontra (by simp)
    | true =>
      simp only [updateProgress, hb, hst]
      by_cases hcond : (1 : ℚ) ≤ min ((t - st) / 2500) 1
      · rw [if_pos hcond]
        simp only [true_iff, eq_self_iff_true, true_and]
        have h1 : (1 : ℚ) ≤ (t - st) / 2500 := (le_min_iff.mp hcond).1
        have := (le_div_iff₀ (by norm_num : (0 : ℚ) < 2500)).mp h1
        linarith
      · rw [if_neg hcond]
        simp only [ha]
        constructor
        · intro hfalse
          exact absurd hfalse (by simp)
        · rintro ⟨_, h2500⟩
          exfalso
          apply hcond
          refine le_min ?_ le_rfl
          rw [le_div_iff₀ (by norm_num : (0 : ℚ) < 2500)]
          linarith

/-- Witness for C5 (amended) at a concrete armed hold begun at t = 0: a
(3, 4)-pixel move cancels the hold, and a progress tick at t = 2500
activates the autopilot. -/
theorem hold_cancellation_and_activation_witness :
    (handleMouseMoveHold 3 4
      (HoldState.mk false true true (some 0) 0)).isHolding = false ∧
    (updateProgress 2500
      (HoldState.mk false true true (some 0) 0)).isAutoPilot = true := by
  have h := hold_cancellation_and_activation
    (HoldState.mk false true true (some 0) 0) 2500 0 3 4
  exact ⟨(h.1 rfl rfl).1, (h.2 rfl rfl).mpr ⟨rfl, by norm_num⟩⟩

/-- C4 (amended): every ship position committed by the navigation operations
(drag update, momentum tick, autopilot tick, repulsion, reset) has both
coordinates in `[0, 200)` — the wrap range `[0, WORLD_CONFIG.width)` with
`WORLD_CONFIG.width = 200` — whenever the incoming position does. -/
theorem shipPosition_ops_stay_in_world (canvas : Option (ℝ × ℝ))
    (deltaX deltaY deltaTime dirX dirY w h cX cY : ℝ)
    (s : NavState) (m : MomentumState)
    (hsx : s.shipX ∈ Set.Ico (0 : ℝ) 200) (hsy : s.shipY ∈ Set.Ico (0 : ℝ) 200)
    (hmx : m.shipX ∈ Set.Ico (0 : ℝ) 200) (hmy : m.shipY ∈ Set.Ico (0 : ℝ) 200) :
    ((handleMouseMoveStep canvas deltaX deltaY deltaTime s).shipX ∈ Set.Ico (0 : ℝ) 200 ∧
     (handleMouseMoveStep canvas deltaX deltaY deltaTime s).shipY ∈ Set.Ico (0 : ℝ) 200) ∧
    ((applyMomentumStep canvas m).shipX ∈ Set.Ico (0 : ℝ) 200 ∧
     (applyMomentumStep canvas m).shipY ∈ Set.Ico (0 : ℝ) 200) ∧
    ((autoPilotMovementStep canvas dirX dirY s).shipX ∈ Set.Ico (0 : ℝ) 200 ∧
     (autoPilotMovementStep canvas dirX dirY s).shipY ∈ Set.Ico (0 : ℝ) 200) ∧
    ((repelPlayerStep w h cX cY s).shipX ∈ Set.Ico (0 : ℝ) 200 ∧
     (repelPlayerStep w h cX cY s).shipY ∈ Set.Ico (0 : ℝ) 200) ∧
    (resetShipPositionStep.shipX ∈ Set.Ico (0 : ℝ) 200 ∧
     resetShipPositionStep.shipY ∈ Set.Ico (0 : ℝ) 200) := by
  have hw : ∀ v : ℝ, wrap v 0 WORLD_CONFIG_width ∈ Set.Ico (0 : ℝ) 200 := by
    intro v
    rw [WORLD_CONFIG_width]
    exact wrap_mem_Ico v 0 200 (by norm_num)
  have hh : ∀ v : ℝ, wrap v 0 WORLD_CONFIG_height ∈ Set.Ico (0 : ℝ) 200 := by
    intro v
    rw [WORLD_CONFIG_height]
    exact wrap_mem_Ico v 0 200 (by norm_num)
  refine ⟨?_, ?_, ?_, ?_, ?_⟩
  · simp only [handleMouseMoveStep]
    split_ifs with hc hdt
    · exact ⟨hsx, hsy⟩
    · exact ⟨hw _, hh _⟩
    · exact ⟨hw _, hh _⟩
  · simp only [applyMomentumStep]
    split_ifs with hr hsmall hc
    · exact ⟨hmx, hmy⟩
    · exact ⟨hmx, hmy⟩
    · simp only [momentumProposedX, momentumProposedY]
      exact ⟨hw _, hh _⟩
    · exact ⟨hmx, hmy⟩
  · simp only [autoPilotMovementStep]
    split_ifs with hc
    · exact ⟨hsx, hsy⟩
    · exact ⟨hw _, hh _⟩
  · simp only [repelPlayerStep]
    split_ifs with hd
    · exact ⟨hw _, hh _⟩
    · exact ⟨hsx, hsy⟩
  · constructor <;>
      (rw [resetShipPositionStep]; exact Set.mem_Ico.mpr (by norm_num))

/-- Witness for C4 (amended) at the centered state with zero deltas. -/
theorem shipPosition_ops_stay_in_world_witness :
    ((50 : ℝ) ∈ Set.Ico (0 : ℝ) 200) ∧
    ((handleMouseMoveStep none 0 0 0 (NavState.mk 50 50 0 0 0 0)).shipX ∈
      Set.Ico (0 : ℝ) 200 ∧
     (handleMouseMoveStep none 0 0 0 (NavState.mk 50 50 0 0 0 0)).shipY ∈
      Set.Ico (0 : ℝ) 200) ∧
    ((applyMomentumStep none (MomentumState.mk 50 50 0 0 0 0 true)).shipX ∈
      Set.Ico (0 : ℝ) 200 ∧
     (applyMomentumStep none (MomentumState.mk 50 50 0 0 0 0 true)).shipY ∈
      Set.Ico (0 : ℝ) 200) := by
  have hmem : (50 : ℝ) ∈ Set.Ico (0 : ℝ) 200 := Set.mem_Ico.mpr (by norm_num)
  have h := shipPosition_ops_stay_in_world none 0 0 0 0 0 0 0 0 0
    (NavState.mk 50 50 0 0 0 0) (MomentumState.mk 50 50 0 0 0 0 true)
    hmem hmem hmem hmem
  exact ⟨hmem, h.1, h.2.1⟩

/-- C4 counterexample: from the default centered state, a single collision-free
drag update with pixel delta (-1000, 0) commits ship x = 400/3 ≈ 133.3, which
is outside `[0, 100]`; the ship-position invariant claimed as `[0, 100]` does
not hold (the actual wrap range is `[0, 200)`). -/
theorem handleMouseMoveStep_commits_x_above_100 :
    (handleMouseMoveStep none (-1000) 0 16 (NavState.mk 50 50 0 0 0 0)).shipX =
      400 / 3 ∧
    ¬ ((400 / 3 : ℝ) ≤ 100) := by
  have hwx : wrap ((NavState.mk 50 50 0 0 0 0).shipX - (-1000) / 12) 0
      WORLD_CONFIG_width = 400 / 3 := by
    rw [show ((NavState.mk 50 50 0 0 0 0).shipX - (-1000) / 12) = (400 / 3 : ℝ)
      by norm_num, WORLD_CONFIG_width]
    exact wrap_eq_self _ _ _ (by norm_num) (by norm_num)
  have hwy : wrap ((NavState.mk 50 50 0 0 0 0).shipY - 0 / 12) 0
      WORLD_CONFIG_height = 50 := by
    rw [show ((NavState.mk 50 50 0 0 0 0).shipY - 0 / 12) = (50 : ℝ)
      by norm_num, WORLD_CONFIG_height]
    exact wrap_eq_self _ _ _ (by norm_num) (by norm_num)
  constructor
  · simp only [handleMouseMoveStep, hwx, hwy]
    rw [if_neg]
    rw [Bool.not_eq_true]
    apply checkBarrierCollision_far_inside
    show ((NavState.mk 50 50 0 0 0 0).mapX + ((NavState.mk 50 50 0 0 0 0).shipX - 400 / 3) * 12) *
        ((NavState.mk 50 50 0 0 0 0).mapX + ((NavState.mk 50 50 0 0 0 0).shipX - 400 / 3) * 12) +
        ((NavState.mk 50 50 0 0 0 0).mapY + ((NavState.mk 50 50 0 0 0 0).shipY - 50) * 12) *
        ((NavState.mk 50 50 0 0 0 0).mapY + ((NavState.mk 50 50 0 0 0 0).shipY - 50) * 12) <
        1190 ^ 2
    norm_num
  · norm_num

theorem pow_0995_400000_small : (0.995 : ℝ) ^ 400000 * 1.5 < 0.001 := by
  have h199 : (0.995 : ℝ) = ((200 / 199 : ℝ))⁻¹ := by norm_num
  have hb : (1 : ℝ) + 400000 * (1 / 199) ≤ (1 + 1 / 199) ^ 400000 :=
    one_add_mul_le_pow (by norm_num) 400000
  have h200 : ((1 : ℝ) + 1 / 199) = 200 / 199 := by norm_num
  have hstep : ((200 / 199 : ℝ) ^ 400000)⁻¹ ≤ ((1 : ℝ) + 400000 * (1 / 199))⁻¹ := by
    apply inv_anti₀ (by norm_num)
    rw [← h200]
    exact hb
  calc (0.995 : ℝ) ^ 400000 * 1.5
      = ((200 / 199 : ℝ) ^ 400000)⁻¹ * 1.5 := by rw [h199, inv_pow]
    _ ≤ ((1 : ℝ) + 400000 * (1 / 199))⁻¹ * 1.5 := by
        exact mul_le_mul_of_nonneg_right hstep (by norm_num)
    _ < 0.001 := by norm_num

/-- C8: under iterated momentum frames without collision, any initial velocity
with per-axis magnitude at most 1.5 decays below 0.001 on both axes within
400000 frames, after which the loop stops with the velocity set to exactly
(0, 0). -/
theorem applyMomentum_terminates (canvas : Option (ℝ × ℝ)) (m : MomentumState)
    (hvx : |m.velX| ≤ 1.5) (hvy : |m.velY| ≤ 1.5) (hrun : m.running = true)
    (hnc : ∀ k : ℕ, ¬ momentumCollides canvas ((applyMomentumStep canvas)^[k] m)) :
    (∃ n ≤ 400000,
      |((applyMomentumStep canvas)^[n] m).velX| < 0.001 ∧
      |((applyMomentumStep canvas)^[n] m).velY| < 0.001) ∧
    ((applyMomentumStep canvas)^[400001] m).running = false ∧
    ((applyMomentumStep canvas)^[400001] m).velX = 0 ∧
    ((applyMomentumStep canvas)^[400001] m).velY = 0 := by
  set f := applyMomentumStep canvas with hf
  have hstop : ∀ s : MomentumState, s.running = false → f s = s := by
    intro s hs
    rw [hf]
    unfold applyMomentumStep
    rw [hs]
    simp
  have hstopstep : ∀ s : MomentumState, s.running = true →
      |s.velX| < 0.001 → |s.velY| < 0.001 →
      f s = { s with velX := 0, velY := 0, running := false } := by
    intro s hs h1 h2
    rw [hf]
    unfold applyMomentumStep
    rw [hs, if_pos rfl, if_pos ⟨h1, h2⟩]
  have hcont : ∀ s : MomentumState, s.running = true →
      ¬ (|s.velX| < 0.001 ∧ |s.velY| < 0.001) →
      ¬ momentumCollides canvas s →
      f s =
        { shipX := momentumProposedX s, shipY := momentumProposedY s,
          mapX := s.mapX + s.velX * 0.995 * 1.5,
          mapY := s.mapY + s.velY * 0.995 * 1.5,
          velX := s.velX * 0.995, velY := s.velY * 0.995,
          running := true } := by
    intro s hs hbig hncol
    rw [momentumCollides, Bool.not_eq_true] at hncol
    rw [hf]
    unfold applyMomentumStep
    rw [hs, if_pos rfl, if_neg hbig, hncol]
    simp
  have inv : ∀ k : ℕ,
      ((f^[k] m).running = false ∧ (f^[k] m).velX = 0 ∧ (f^[k] m).velY = 0) ∨
      ((f^[k] m).running = true ∧
        (f^[k] m).velX = 0.995 ^ k * m.velX ∧
        (f^[k] m).velY = 0.995 ^ k * m.velY) := by
    intro k
    induction k with
    | zero =>
      right
      refine ⟨hrun, ?_, ?_⟩ <;> simp
    | succ k ih =>
      rw [Function.iterate_succ_apply']
      rcases ih with ⟨h1, h2, h3⟩ | ⟨h1, h2, h3⟩
      · left
        rw [hstop _ h1]
        exact ⟨h1, h2, h3⟩
      · by_cases hsmall : |(f^[k] m).velX| < 0.001 ∧ |(f^[k] m).velY| < 0.001
        · left
          rw [hstopstep _ h1 hsmall.1 hsmall.2]
          exact ⟨rfl, rfl, rfl⟩
        · right
          rw [hcont _ h1 hsmall (hnc k)]
          refine ⟨rfl, ?_, ?_⟩
          · show (f^[k] m).velX * 0.995 = 0.995 ^ (k + 1) * m.velX
            rw [h2]
            ring
          · show (f^[k] m).velY * 0.995 = 0.995 ^ (k + 1) * m.velY
            rw [h3]
            ring
  have hdecay : ∀ v : ℝ, |v| ≤ 1.5 → |(0.995 : ℝ) ^ 400000 * v| < 0.001 := by
    intro v hv
    calc |(0.995 : ℝ) ^ 400000 * v| = (0.995 : ℝ) ^ 400000 * |v| := by
          rw [abs_mul, abs_pow, abs_of_pos (by norm_num : (0 : ℝ) < 0.995)]
      _ ≤ (0.995 : ℝ) ^ 400000 * 1.5 :=
          mul_le_mul_of_nonneg_left hv (by positivity)
      _ < 0.001 := pow_0995_400000_small
  have hsmall400000 : |(f^[400000] m).velX| < 0.001 ∧ |(f^[400000] m).velY| < 0.001 := by
    rcases inv 400000 with ⟨h1, h2, h3⟩ | ⟨h1, h2, h3⟩
    · rw [h2, h3]
      norm_num
    · rw [h2, h3]
      exact ⟨hdecay _ hvx, hdecay _ hvy⟩
  refine ⟨⟨400000, le_refl _, hsmall400000⟩, ?_⟩
  have h400001 : (f^[400001] m) = f (f^[400000] m) := by
    rw [show (400001 : ℕ) = 400000 + 1 from rfl, Function.iterate_succ_apply']
  rcases inv 400000 with ⟨h1, h2, h3⟩ | ⟨h1, h2, h3⟩
  · rw [h400001, hstop _ h1]
    exact ⟨h1, h2, h3⟩
  · rw [h400001, hstopstep _ h1 hsmall400000.1 hsmall400000.2]
    exact ⟨rfl, rfl, rfl⟩

/-- Witness for C8: from velocity (0.0005, 0.0005) (within the 1.5 bound and
already below the stop threshold) the momentum loop reaches the stopped state
with velocity exactly (0, 0). -/
theorem applyMomentum_terminates_witness :
    (|(0.0005 : ℝ)| ≤ 1.5) ∧
    ((applyMomentumStep none)^[400001]
        (MomentumState.mk 50 50 0 0 0.0005 0.0005 true)).running = false ∧
    ((applyMomentumStep none)^[400001]
        (MomentumState.mk 50 50 0 0 0.0005 0.0005 true)).velX = 0 ∧
    ((applyMomentumStep none)^[400001]
        (MomentumState.mk 50 50 0 0 0.0005 0.0005 true)).velY = 0 := by
  have habs : |(0.0005 : ℝ)| ≤ 1.5 := by
    rw [abs_of_pos] <;> norm_num
  have hsmall : |(0.0005 : ℝ)| < 0.001 := by
    rw [abs_of_pos] <;> norm_num
  have hstep0 : applyMomentumStep none (MomentumState.mk 50 50 0 0 0.0005 0.0005 true) =
      MomentumState.mk 50 50 0 0 0 0 false := by
    unfold applyMomentumStep
    rw [if_pos rfl, if_pos ⟨hsmall, hsmall⟩]
  have hfix : applyMomentumStep none (MomentumState.mk 50 50 0 0 0 0 false) =
      MomentumState.mk 50 50 0 0 0 0 false := by
    unfold applyMomentumStep
    rw [if_neg (by simp : ¬ ((MomentumState.mk (50:ℝ) 50 0 0 0 0 false).running = true))]
  have hiter : ∀ k : ℕ, (applyMomentumStep none)^[k + 1]
      (MomentumState.mk 50 50 0 0 0.0005 0.0005 true) =
      MomentumState.mk 50 50 0 0 0 0 false := by
    intro k
    rw [Function.iterate_succ_apply, hstep0]
    exact Function.iterate_fixed hfix k
  have hnc : ∀ k : ℕ, ¬ momentumCollides none ((applyMomentumStep none)^[k]
      (MomentumState.mk 50 50 0 0 0.0005 0.0005 true)) := by
    intro k
    cases k with
    | zero =>
      have hpx : momentumProposedX (MomentumState.mk 50 50 0 0 0.0005 0.0005 true) =
          50 - 0.0005 * 0.995 * 1.5 / 20 := by
        unfold momentumProposedX
        rw [WORLD_CONFIG_width]
        exact wrap_eq_self _ _ _ (by norm_num) (by norm_num)
      have hpy : momentumProposedY (MomentumState.mk 50 50 0 0 0.0005 0.0005 true) =
          50 - 0.0005 * 0.995 * 1.5 / 20 := by
        unfold momentumProposedY
        rw [WORLD_CONFIG_height]
        exact wrap_eq_self _ _ _ (by norm_num) (by norm_num)
      have hfar := checkBarrierCollision_far_inside none
        (momentumProposedMapX (MomentumState.mk 50 50 0 0 0.0005 0.0005 true))
        (momentumProposedMapY (MomentumState.mk 50 50 0 0 0.0005 0.0005 true))
        (by
          unfold momentumProposedMapX momentumProposedMapY
          rw [hpx, hpy]
          norm_num)
      rw [Function.iterate_zero_apply, momentumCollides, hfar]
      simp
    | succ k =>
      have hpx : momentumProposedX (MomentumState.mk 50 50 0 0 0 0 false) = 50 := by
        unfold momentumProposedX
        rw [WORLD_CONFIG_width, show ((MomentumState.mk (50:ℝ) 50 0 0 0 0 false).shipX -
          (MomentumState.mk (50:ℝ) 50 0 0 0 0 false).velX * 0.995 * 1.5 / 20) = (50 : ℝ)
          by norm_num]
        exact wrap_eq_self _ _ _ (by norm_num) (by norm_num)
      have hpy : momentumProposedY (MomentumState.mk 50 50 0 0 0 0 false) = 50 := by
        unfold momentumProposedY
        rw [WORLD_CONFIG_height, show ((MomentumState.mk (50:ℝ) 50 0 0 0 0 false).shipY -
          (MomentumState.mk (50:ℝ) 50 0 0 0 0 false).velY * 0.995 * 1.5 / 20) = (50 : ℝ)
          by norm_num]
        exact wrap_eq_self _ _ _ (by norm_num) (by norm_num)
      have hfar := checkBarrierCollision_far_inside none
        (momentumProposedMapX (MomentumState.mk 50 50 0 0 0 0 false))
        (momentumProposedMapY (MomentumState.mk 50 50 0 0 0 0 false))
        (by
          unfold momentumProposedMapX momentumProposedMapY
          rw [hpx, hpy]
          norm_num)
      rw [hiter k, momentumCollides, hfar]
      simp
  exact ⟨habs, (applyMomentum_terminates none
    (MomentumState.mk 50 50 0 0 0.0005 0.0005 true) habs habs rfl hnc).2⟩

/-- C6: the NPC pause protocol. (1) A tick that enters the paused state
assigns a pause timer in [180, 420) (for a random draw in [0, 1)). (2) A tick
that exits the paused state leaves the cooldown at exactly 600 and the
recently-paused flag blocks re-entry unless the nearest-POI distance exceeds
15. (3) While the decremented cooldown is positive the NPC cannot enter pause
and the cooldown decrements by exactly one. (4) Once the cooldown has run out,
a close approach (distance < 8) with a cleared flag re-enters pause. (5) Along
any trace started right after a pause exit (cooldown 600), the NPC stays
unpaused for the following 599 ticks, the cooldown reaching `600 - k`. -/
theorem wanderingShip_pause_protocol (points : List Point) (inp : WanderInput)
    (prev : WanderingShip) (hr : inp.rPause ∈ Set.Ico (0 : ℝ) 1) :
    (prev.isPaused = false → (updateWanderingShip points inp prev).isPaused = true →
      180 ≤ (updateWanderingShip points inp prev).pauseTimer ∧
      (updateWanderingShip points inp prev).pauseTimer < 420) ∧
    (prev.isPaused = true → prev.pauseTimer - 1 ≤ 0 →
      (updateWanderingShip points inp prev).isPaused = false ∧
      (updateWanderingShip points inp prev).pauseCooldown = 600 ∧
      ((updateWanderingShip points inp prev).hasRecentlyPaused = false ↔
        nearestWorldDistanceCalc points prev.x prev.y > 15)) ∧
    (prev.isPaused = false → 0 < max 0 (prev.pauseCooldown - 1) →
      (updateWanderingShip points inp prev).isPaused = false ∧
      (updateWanderingShip points inp prev).pauseCooldown =
        max 0 (prev.pauseCooldown - 1)) ∧
    (prev.isPaused = false → max 0 (prev.pauseCooldown - 1) ≤ 0 →
      prev.hasRecentlyPaused = false →
      nearestWorldDistanceCalc points prev.x prev.y < 8 →
      (updateWanderingShip points inp prev).isPaused = true) ∧
    (∀ (ptss : ℕ → List Point) (inps : ℕ → WanderInput) (s0 : WanderingShip),
      s0.isPaused = false → s0.pauseCooldown = 600 →
      ∀ k : ℕ, k ≤ 599 →
        (wanderTrace ptss inps s0 k).isPaused = false ∧
        (wanderTrace ptss inps s0 k).pauseCooldown = 600 - (k : ℝ)) := by
  have hstepgen : ∀ (pts : List Point) (i : WanderInput) (s : WanderingShip),
      s.isPaused = false → 1 < s.pauseCooldown →
      (updateWanderingShip pts i s).isPaused = false ∧
      (updateWanderingShip pts i s).pauseCooldown = s.pauseCooldown - 1 := by
    intro pts i s hp hc
    have hmax : max 0 (s.pauseCooldown - 1) = s.pauseCooldown - 1 :=
      max_eq_right (by linarith)
    constructor
    · simp only [updateWanderingShip]
      rw [if_neg (by simp [hp]), if_neg (by
        rintro ⟨_, _, h3⟩
        rw [hmax] at h3
        linarith)]
      rfl
    · simp only [updateWanderingShip]
      rw [if_neg (by simp [hp]), if_neg (by
        rintro ⟨_, _, h3⟩
        rw [hmax] at h3
        linarith)]
      show max 0 (s.pauseCooldown - 1) = s.pauseCooldown - 1
      exact hmax
  refine ⟨?_, ?_, ?_, ?_, ?_⟩
  · intro hp hpost
    by_cases hcond : nearestWorldDistanceCalc points prev.x prev.y < 8 ∧
        prev.hasRecentlyPaused = false ∧ max 0 (prev.pauseCooldown - 1) ≤ 0
    · have ht : (updateWanderingShip points inp prev).pauseTimer =
          180 + inp.rPause * 240 := by
        simp only [updateWanderingShip]
        rw [if_neg (by simp [hp]), if_pos hcond]
      obtain ⟨h0, h1⟩ := hr
      rw [ht]
      constructor <;> nlinarith
    · have hfalse : (updateWanderingShip points inp prev).isPaused = false := by
        simp only [updateWanderingShip]
        rw [if_neg (by simp [hp]), if_neg hcond]
        rfl
      rw [hfalse] at hpost
      exact absurd hpost (by simp)
  · intro hp ht
    refine ⟨?_, ?_, ?_⟩
    · simp only [updateWanderingShip]
      rw [if_pos hp, if_pos ht]
      rfl
    · simp only [updateWanderingShip]
      rw [if_pos hp, if_pos ht]
      rfl
    · simp only [updateWanderingShip]
      rw [if_pos hp, if_pos ht]
      show (if nearestWorldDistanceCalc points prev.x prev.y > 15 then false
        else true) = false ↔ nearestWorldDistanceCalc points prev.x prev.y > 15
      by_cases h15 : nearestWorldDistanceCalc points prev.x prev.y > 15 <;>
        simp [h15]
  · intro hp hc
    constructor
    · simp only [updateWanderingShip]
      rw [if_neg (by simp [hp]), if_neg (by
        rintro ⟨_, _, h3⟩
        linarith)]
      rfl
    · simp only [updateWanderingShip]
      rw [if_neg (by simp [hp]), if_neg (by
        rintro ⟨_, _, h3⟩
        linarith)]
      rfl
  · intro hp hc hf h8
    simp only [updateWanderingShip]
    rw [if_neg (by simp [hp]), if_pos ⟨h8, hf, hc⟩]
  · intro ptss inps s0 h0 hc0 k
    induction k with
    | zero =>
      intro _
      refine ⟨h0, ?_⟩
      rw [show wanderTrace ptss inps s0 0 = s0 from rfl, hc0]
      norm_num
    | succ k ih =>
      intro hk
      obtain ⟨hp, hc⟩ := ih (by omega)
      have hkr : (k : ℝ) ≤ 598 := by
        exact_mod_cast (by omega : k ≤ 598)
      have hcgt : 1 < (wanderTrace ptss inps s0 k).pauseCooldown := by
        rw [hc]
        linarith
      obtain ⟨hp', hc'⟩ := hstepgen (ptss k) (inps k) _ hp hcgt
      refine ⟨hp', ?_⟩
      rw [show wanderTrace ptss inps s0 (k + 1) =
        updateWanderingShip (ptss k) (inps k) (wanderTrace ptss inps s0 k)
        from rfl, hc', hc]
      push_cast
      ring

/-- Witness for C6 with a single point of interest at the NPC's own position
(distance 0 < 8), a cleared flag and an expired cooldown: the tick enters
pause with a timer in [180, 420). -/
theorem wanderingShip_pause_protocol_witness :
    ((1 / 2 : ℝ) ∈ Set.Ico (0 : ℝ) 1) ∧
    (updateWanderingShip [Point.mk 50 45]
      (WanderInput.mk (1 / 2) 0 0 0 0)
      (WanderingShip.mk 50 45 0 0 0 0.2 0.4 0 0 0 300 true 100 false 0 100
        false 0)).isPaused = true ∧
    (180 ≤ (updateWanderingShip [Point.mk 50 45]
      (WanderInput.mk (1 / 2) 0 0 0 0)
      (WanderingShip.mk 50 45 0 0 0 0.2 0.4 0 0 0 300 true 100 false 0 100
        false 0)).pauseTimer ∧
     (updateWanderingShip [Point.mk 50 45]
      (WanderInput.mk (1 / 2) 0 0 0 0)
      (WanderingShip.mk 50 45 0 0 0 0.2 0.4 0 0 0 300 true 100 false 0 100
        false 0)).pauseTimer < 420) := by
  have hmem : (1 / 2 : ℝ) ∈ Set.Ico (0 : ℝ) 1 := Set.mem_Ico.mpr (by norm_num)
  have hnwd : nearestWorldDistanceCalc [Point.mk 50 45] (50 : ℝ) 45 = 0 := by
    simp [nearestWorldDistanceCalc, List.min?]
  have h := wanderingShip_pause_protocol [Point.mk 50 45]
    (WanderInput.mk (1 / 2) 0 0 0 0)
    (WanderingShip.mk 50 45 0 0 0 0.2 0.4 0 0 0 300 true 100 false 0 100
      false 0) hmem
  have hpause := h.2.2.2.1 rfl (by norm_num) rfl (by rw [hnwd]; norm_num)
  exact ⟨hmem, hpause, h.1 rfl hpause⟩

theorem boundary_clamp_le (px py nX nY θ : ℝ)
    (h : Real.sqrt ((px - 50) * (px - 50) + (py - 50) * (py - 50)) ≤ 36) :
    Real.sqrt
      (((if Real.sqrt ((nX - 50) * (nX - 50) + (nY - 50) * (nY - 50)) > 35 then
          if Real.sqrt ((nX - 50) * (nX - 50) + (nY - 50) * (nY - 50)) > 36 then
            (50 + Real.cos θ * 35, 50 + Real.sin θ * 35)
          else (px, py)
        else (nX, nY)).1 - 50) *
       ((if Real.sqrt ((nX - 50) * (nX - 50) + (nY - 50) * (nY - 50)) > 35 then
          if Real.sqrt ((nX - 50) * (nX - 50) + (nY - 50) * (nY - 50)) > 36 then
            (50 + Real.cos θ * 35, 50 + Real.sin θ * 35)
          else (px, py)
        else (nX, nY)).1 - 50) +
       ((if Real.sqrt ((nX - 50) * (nX - 50) + (nY - 50) * (nY - 50)) > 35 then
          if Real.sqrt ((nX - 50) * (nX - 50) + (nY - 50) * (nY - 50)) > 36 then
            (50 + Real.cos θ * 35, 50 + Real.sin θ * 35)
          else (px, py)
        else (nX, nY)).2 - 50) *
       ((if Real.sqrt ((nX - 50) * (nX - 50) + (nY - 50) * (nY - 50)) > 35 then
          if Real.sqrt ((nX - 50) * (nX - 50) + (nY - 50) * (nY - 50)) > 36 then
            (50 + Real.cos θ * 35, 50 + Real.sin θ * 35)
          else (px, py)
        else (nX, nY)).2 - 50)) ≤ 36 := by
  split_ifs with h35 h36
  · show Real.sqrt ((50 + Real.cos θ * 35 - 50) * (50 + Real.cos θ * 35 - 50) +
      (50 + Real.sin θ * 35 - 50) * (50 + Real.sin θ * 35 - 50)) ≤ 36
    rw [show (50 + Real.cos θ * 35 - 50) * (50 + Real.cos θ * 35 - 50) +
      (50 + Real.sin θ * 35 - 50) * (50 + Real.sin θ * 35 - 50) = (35 : ℝ) ^ 2 by
        nlinarith [Real.sin_sq_add_cos_sq θ]]
    rw [Real.sqrt_sq (by norm_num)]
    norm_num
  · exact h
  · have h35' := not_lt.mp h35
    show Real.sqrt ((nX - 50) * (nX - 50) + (nY - 50) * (nY - 50)) ≤ 36
    linarith

theorem wanderMove_within_radius (inp : WanderInput) (prev : WanderingShip)
    (dtp nwd : ℝ) (flag : Bool) (cd : ℝ)
    (h : Real.sqrt ((prev.x - 50) * (prev.x - 50) +
      (prev.y - 50) * (prev.y - 50)) ≤ 36) :
    Real.sqrt (((wanderMove inp prev dtp nwd flag cd).x - 50) *
      ((wanderMove inp prev dtp nwd flag cd).x - 50) +
      ((wanderMove inp prev dtp nwd flag cd).y - 50) *
      ((wanderMove inp prev dtp nwd flag cd).y - 50)) ≤ 36 := by
  simp only [wanderMove]
  exact boundary_clamp_le prev.x prev.y _ _ _ h

/-- C10: the wandering NPC's distance from (50, 50) never exceeds 36: a tick
applied to a state within distance 36 yields a state within distance 36, and
the initial state (50, 45) is within distance 36 for any random draws. -/
theorem wanderingShip_radius_invariant (points : List Point) (inp : WanderInput)
    (prev : WanderingShip)
    (h : Real.sqrt ((prev.x - 50) * (prev.x - 50) +
      (prev.y - 50) * (prev.y - 50)) ≤ 36) :
    Real.sqrt (((updateWanderingShip points inp prev).x - 50) *
      ((updateWanderingShip points inp prev).x - 50) +
      ((updateWanderingShip points inp prev).y - 50) *
      ((updateWanderingShip points inp prev).y - 50)) ≤ 36 ∧
    (∀ r1 r2 r3 : ℝ,
      Real.sqrt (((wanderingShipInit r1 r2 r3).x - 50) *
        ((wanderingShipInit r1 r2 r3).x - 50) +
        ((wanderingShipInit r1 r2 r3).y - 50) *
        ((wanderingShipInit r1 r2 r3).y - 50)) ≤ 36) := by
  constructor
  · simp only [updateWanderingShip]
    split_ifs with hp ht hcond
    · exact wanderMove_within_radius _ _ _ _ _ _ h
    · exact h
    · exact h
    · exact wanderMove_within_radius _ _ _ _ _ _ h
  · intro r1 r2 r3
    show Real.sqrt (((50 : ℝ) - 50) * ((50 : ℝ) - 50) +
      ((45 : ℝ) - 50) * ((45 : ℝ) - 50)) ≤ 36
    rw [show ((50 : ℝ) - 50) * ((50 : ℝ) - 50) +
      ((45 : ℝ) - 50) * ((45 : ℝ) - 50) = (5 : ℝ) ^ 2 by norm_num]
    rw [Real.sqrt_sq (by norm_num)]
    norm_num

/-- Witness for C10 at the initial state (50, 45), within distance 5 of the
center. -/
theorem wanderingShip_radius_invariant_witness :
    Real.sqrt (((WanderingShip.mk 50 45 0 0 0 0.2 0.4 0 0 0 300 true 100 false
        0 100 false 0).x - 50) *
      ((WanderingShip.mk 50 45 0 0 0 0.2 0.4 0 0 0 300 true 100 false 0 100
        false 0).x - 50) +
      ((WanderingShip.mk 50 45 0 0 0 0.2 0.4 0 0 0 300 true 100 false 0 100
        false 0).y - 50) *
      ((WanderingShip.mk 50 45 0 0 0 0.2 0.4 0 0 0 300 true 100 false 0 100
        false 0).y - 50)) ≤ 36 ∧
    Real.sqrt (((updateWanderingShip [] (WanderInput.mk 0 0 0 0 0)
        (WanderingShip.mk 50 45 0 0 0 0.2 0.4 0 0 0 300 true 100 false 0 100
          false 0)).x - 50) *
      ((updateWanderingShip [] (WanderInput.mk 0 0 0 0 0)
        (WanderingShip.mk 50 45 0 0 0 0.2 0.4 0 0 0 300 true 100 false 0 100
          false 0)).x - 50) +
      ((updateWanderingShip [] (WanderInput.mk 0 0 0 0 0)
        (WanderingShip.mk 50 45 0 0 0 0.2 0.4 0 0 0 300 true 100 false 0 100
          false 0)).y - 50) *
      ((updateWanderingShip [] (WanderInput.mk 0 0 0 0 0)
        (WanderingShip.mk 50 45 0 0 0 0.2 0.4 0 0 0 300 true 100 false 0 100
          false 0)).y - 50)) ≤ 36 := by
  have hinit : Real.sqrt (((WanderingShip.mk (50:ℝ) 45 0 0 0 0.2 0.4 0 0 0 300
      true 100 false 0 100 false 0).x - 50) *
      ((WanderingShip.mk (50:ℝ) 45 0 0 0 0.2 0.4 0 0 0 300 true 100 false 0 100
        false 0).x - 50) +
      ((WanderingShip.mk (50:ℝ) 45 0 0 0 0.2 0.4 0 0 0 300 true 100 false 0 100
        false 0).y - 50) *
      ((WanderingShip.mk (50:ℝ) 45 0 0 0 0.2 0.4 0 0 0 300 true 100 false 0 100
        false 0).y - 50)) ≤ 36 := by
    show Real.sqrt (((50 : ℝ) - 50) * ((50 : ℝ) - 50) +
      ((45 : ℝ) - 50) * ((45 : ℝ) - 50)) ≤ 36
    rw [show ((50 : ℝ) - 50) * ((50 : ℝ) - 50) +
      ((45 : ℝ) - 50) * ((45 : ℝ) - 50) = (5 : ℝ) ^ 2 by norm_num]
    rw [Real.sqrt_sq (by norm_num)]
    norm_num
  exact ⟨hinit, (wanderingShip_radius_invariant [] (WanderInput.mk 0 0 0 0 0)
    (WanderingShip.mk 50 45 0 0 0 0.2 0.4 0 0 0 300 true 100 false 0 100
      false 0) hinit).1⟩

/-- C7: evaluation at a concrete moving tick that crosses into the (35, 36]
band. The NPC at (85.5, 50) heading +x (away from the center, integrated
distance 35.64): the position is retained as claimed, but the new heading is
`angleToCenter + π + perturbation = 2π`, i.e. it points away from the center
(+x), not toward it: every angle of the form `angleToCenter + s` with
`|s| ≤ 1` differs from it. -/
theorem updateWanderingShip_redirects_outward :
    (updateWanderingShip []
      (WanderInput.mk 0 0 0 0.5 0)
      (WanderingShip.mk 85.5 50 0 0 0 0.2 0.4 0 0 0 300 true 100 false 0 100
        false 0)).x = 85.5 ∧
    (updateWanderingShip []
      (WanderInput.mk 0 0 0 0.5 0)
      (WanderingShip.mk 85.5 50 0 0 0 0.2 0.4 0 0 0 300 true 100 false 0 100
        false 0)).y = 50 ∧
    (updateWanderingShip []
      (WanderInput.mk 0 0 0 0.5 0)
      (WanderingShip.mk 85.5 50 0 0 0 0.2 0.4 0 0 0 300 true 100 false 0 100
        false 0)).direction = 2 * Real.pi ∧
    atan2 ((50 : ℝ) - 50) ((50 : ℝ) - 85.5) = Real.pi ∧
    (∀ s : ℝ, |s| ≤ 1 →
      (updateWanderingShip []
        (WanderInput.mk 0 0 0 0.5 0)
        (WanderingShip.mk 85.5 50 0 0 0 0.2 0.4 0 0 0 300 true 100 false 0 100
          false 0)).direction ≠ Real.pi + s) := by
  have hnwd : nearestWorldDistanceCalc [] (85.5 : ℝ) 50 = 100 := by
    simp [nearestWorldDistanceCalc]
  have hatan : atan2 ((0 : ℝ)) (-35.5 : ℝ) = Real.pi := by
    rw [atan2]
    rw [show ((( -35.5 : ℝ) : ℂ) + ((0 : ℝ) : ℂ) * Complex.I) = ((-35.5 : ℝ) : ℂ) by
      push_cast; ring]
    exact Complex.arg_ofReal_of_neg (by norm_num)
  have hatan' : atan2 ((50 : ℝ) - 50) ((50 : ℝ) - 85.5) = Real.pi := by
    rw [show ((50 : ℝ) - 50) = (0 : ℝ) by norm_num,
      show ((50 : ℝ) - 85.5) = (-35.5 : ℝ) by norm_num]
    exact hatan
  have hstep : updateWanderingShip []
      (WanderInput.mk 0 0 0 0.5 0)
      (WanderingShip.mk 85.5 50 0 0 0 0.2 0.4 0 0 0 300 true 100 false 0 100
        false 0) =
      wanderMove (WanderInput.mk 0 0 0 0.5 0)
        (WanderingShip.mk 85.5 50 0 0 0 0.2 0.4 0 0 0 300 true 100 false 0 100
          false 0)
        (Real.sqrt (((85.5 : ℝ) - 50) * ((85.5 : ℝ) - 50) +
          ((50 : ℝ) - 50) * ((50 : ℝ) - 50)))
        (nearestWorldDistanceCalc [] (85.5 : ℝ) 50) false
        (max 0 ((0 : ℝ) - 1)) := by
    simp only [updateWanderingShip]
    rw [if_neg (by simp), if_neg (by
      rintro ⟨h8, _, _⟩
      rw [hnwd] at h8
      norm_num at h8)]
  have h891 : Real.sqrt 793881 = 891 := by
    rw [show (793881 : ℝ) = 891 ^ 2 by norm_num]
    exact Real.sqrt_sq (by norm_num)
  have h625 : Real.sqrt 625 = 25 := by
    rw [show (625 : ℝ) = 25 ^ 2 by norm_num]
    exact Real.sqrt_sq (by norm_num)
  have hatanA : atan2 (0 : ℝ) (-(71 / 2)) = Real.pi := by
    rw [show (-(71 / 2) : ℝ) = (-35.5 : ℝ) by norm_num]
    exact hatan
  have hatanB : atan2 (0 : ℝ) ((-71) / 2) = Real.pi := by
    rw [show (((-71) / 2) : ℝ) = (-35.5 : ℝ) by norm_num]
    exact hatan
  rw [hstep]
  simp only [wanderMove]
  norm_num [Real.sin_zero, Real.cos_zero, hatan, hatanA, hatanB,
    h891, h625,
    (show ¬ (Real.pi < 0) from not_lt.mpr Real.pi_nonneg)]
  refine ⟨by ring, ?_⟩
  intro s hs habs
  rw [← habs] at hs
  rw [abs_of_pos Real.pi_pos] at hs
  linarith [Real.pi_gt_three]

end GalaxyMap
